import Mathlib

/-!
Verification of the FAQ AgentCore application
(`faq_agentcore_app_with_logging.py`): a shallow embedding of the
CSV-to-document loader, the three retrieval tools, and the entrypoint,
together with theorems settling the specification's claims.

External collaborators (the FAISS vector store and the agent loop) are
modelled as abstract function parameters, exactly as the spec treats them:
narrow interfaces consumed, not implemented, by this code.
-/

namespace FaqApp

/-- A retrievable text unit; mirrors `langchain_core.documents.Document`
restricted to the one field this program uses (`page_content`). -/
structure Document where
  page_content : String
deriving DecidableEq, Repr

/-- One data row of the input table, as produced by `csv.DictReader`
restricted to the two columns the program reads: a field is `none` when the
row does not carry a value for that column. -/
structure Row where
  question : Option String
  answer : Option String
deriving DecidableEq, Repr

/-- The loader's failure mode: a data row missing a required field
(`row["Question"]` / `row["Answer"]` yielding no usable string). -/
inductive LoadError where
  | missingField : LoadError
deriving DecidableEq, Repr

/-- Embeds Python's `str.strip()` with no argument: remove leading and
trailing whitespace characters from the string. -/
def strip (s : String) : String :=
  ⟨((s.data.dropWhile Char.isWhitespace).reverse.dropWhile
      Char.isWhitespace).reverse⟩

/-- Embeds `row[name].strip()`: a present field is trimmed of leading and
trailing whitespace; a missing field raises. -/
def stripField : Option String → Except LoadError String
  | none => .error .missingField
  | some s => .ok (strip s)

/-- Embeds `load_faq_csv` (source lines 32-50): iterate the parsed data rows
in order, for each row take `row["Question"].strip()` and
`row["Answer"].strip()` and append a `Document` with content
`f"Q: {q}\nA: {a}"`; any missing field aborts the whole load. -/
def load_faq_csv : List Row → Except LoadError (List Document)
  | [] => .ok []
  | r :: rest =>
    match stripField r.question with
    | .error e => .error e
    | .ok q =>
      match stripField r.answer with
      | .error e => .error e
      | .ok a =>
        match load_faq_csv rest with
        | .error e => .error e
        | .ok ds => .ok (⟨"Q: " ++ q ++ "\nA: " ++ a⟩ :: ds)

/-- The Document the spec expects the loader to produce for a given
well-formed row: both fields trimmed and formatted as
`"Q: {question}\nA: {answer}"`. -/
def expectedDoc (r : Row) : Document :=
  ⟨"Q: " ++ strip (r.question.getD "") ++ "\nA: " ++
    strip (r.answer.getD "")⟩

/-- The Embedding Index as the tools see it: an external similarity-search
capability. `similarity_search query k` returns the ranked chunks for the
query; the tools treat it as an opaque, read-only collaborator (mirrors the
module-level FAISS `store`). -/
structure VectorStore where
  similarity_search : String → Nat → List Document

/-- Embeds the tool `search_faq` (source lines 69-93): query the store with
top-k 3; with no results return the sentinel sentence, otherwise enumerate
the results as `"FAQ Entry {i+1}:\n{content}"` joined by `"\n\n---\n\n"`
under the header `"Found {n} relevant FAQ entries:\n\n"`. -/
def search_faq (store : VectorStore) (query : String) : String :=
  let results := store.similarity_search query 3
  if results.isEmpty then
    "No relevant FAQ entries found."
  else
    let context := String.intercalate "\n\n---\n\n"
      (results.enum.map fun p =>
        "FAQ Entry " ++ toString (p.1 + 1) ++ ":\n" ++ p.2.page_content)
    "Found " ++ toString results.length ++ " relevant FAQ entries:\n\n" ++
      context

/-- Embeds the tool `search_detailed_faq` (source lines 96-121): like
`search_faq` but the caller chooses the result count (default 5) and the
header reads `"Found {n} detailed FAQ entries:\n\n"`. -/
def search_detailed_faq (store : VectorStore) (query : String)
    (num_results : Nat := 5) : String :=
  let results := store.similarity_search query num_results
  if results.isEmpty then
    "No relevant FAQ entries found."
  else
    let context := String.intercalate "\n\n---\n\n"
      (results.enum.map fun p =>
        "FAQ Entry " ++ toString (p.1 + 1) ++ ":\n" ++ p.2.page_content)
    "Found " ++ toString results.length ++ " detailed FAQ entries:\n\n" ++
      context

/-- Embeds the tool `reformulate_query` (source lines 124-150): rewrite the
query as `f"{focus_aspect} related to {original_query}"`, search the store
with top-k 3 using the rewritten string, and render the results as
`"Entry {i+1}:\n{content}"` under the header
`"Results for '{focus_aspect}' aspect:\n\n"`. -/
def reformulate_query (store : VectorStore) (original_query : String)
    (focus_aspect : String) : String :=
  let reformulated := focus_aspect ++ " related to " ++ original_query
  let results := store.similarity_search reformulated 3
  if results.isEmpty then
    "No results found for aspect: " ++ focus_aspect
  else
    let context := String.intercalate "\n\n---\n\n"
      (results.enum.map fun p =>
        "Entry " ++ toString (p.1 + 1) ++ ":\n" ++ p.2.page_content)
    "Results for \x27" ++ focus_aspect ++ "\x27 aspect:\n\n" ++ context

/-- A store returning no chunks for any query, for concrete runs of the
empty-result cases. -/
def emptyStore : VectorStore := ⟨fun _ _ => []⟩

/-- A store holding a fixed chunk list and honoring the requested count by
truncation, for concrete runs of the non-empty cases. -/
def constStore (docs : List Document) : VectorStore :=
  ⟨fun _ k => docs.take k⟩

/-- One message of the agent's returned message history; mirrors the
message objects of `result["messages"]` restricted to the one field the
entrypoint reads (`content`). -/
structure Message where
  content : String
deriving DecidableEq, Repr

/-- The Agent Loop as the entrypoint sees it: an external capability taking
the seed messages (role/content pairs, as in
`{"messages": [("human", query)]}`) to the final message history of
`agent.invoke(...)["messages"]`. -/
abbrev AgentLoop : Type := List (String × String) → List Message

/-- Embeds the entrypoint `agent_invocation` (source lines 184-201): read
`payload.get("prompt", "No prompt found in input")`, invoke the agent with
a single human-turn message seeded from it, and answer
`{"result": result["messages"][-1].content}`. The response mapping is
modelled as an association list so that "exactly one key" is visible;
Python's `[-1]` on an empty history raises, modelled as `none`. -/
def agent_invocation (agent : AgentLoop) (payload : List (String × String)) :
    Option (List (String × String)) :=
  let query := (payload.lookup "prompt").getD "No prompt found in input"
  let result := agent [("human", query)]
  match result.getLast? with
  | some m => some [("result", m.content)]
  | none => none

/-- A fixed agent loop replying with a constant one-message history, for
concrete runs of the entrypoint. -/
def constAgent (answer : String) : AgentLoop := fun _ => [⟨answer⟩]

/-- The module-level mutable state visible to the tools: just the FAISS
store built at startup. -/
structure AppState where
  store : VectorStore

/-- A call to one of the three registered tools, with its arguments. -/
inductive ToolCall where
  | callSearchFaq (query : String)
  | callSearchDetailedFaq (query : String) (num_results : Nat)
  | callReformulateQuery (original_query : String) (focus_aspect : String)
deriving DecidableEq

/-- Dispatch one tool call against the application state, returning the
tool's text and the state after the call. Each tool body only reads the
module-level `store` (no tool assigns any global), so the embedding threads
the state through unchanged. -/
def runTool (s : AppState) (c : ToolCall) : String × AppState :=
  match c with
  | .callSearchFaq query => (search_faq s.store query, s)
  | .callSearchDetailedFaq query num_results =>
      (search_detailed_faq s.store query num_results, s)
  | .callReformulateQuery original_query focus_aspect =>
      (reformulate_query s.store original_query focus_aspect, s)

end FaqApp

namespace FaqApp

/-- **C8**: for an input table consisting of only a header row and no data
rows, `load_faq_csv` returns the empty sequence of Documents, not an
error. -/
theorem load_faq_csv_empty : load_faq_csv [] = .ok [] := rfl

/-- **C1**: for every well-formed input table (every data row carrying both
a `Question` and an `Answer` field) with N data rows, `load_faq_csv`
returns exactly N Documents in row order, the Document of a row with
question q and answer a having content `"Q: "` followed by q stripped of
leading/trailing whitespace, a newline, `"A: "`, and a stripped. -/
theorem load_faq_csv_wellformed (rows : List Row)
    (h : ∀ r ∈ rows, r.question.isSome ∧ r.answer.isSome) :
    load_faq_csv rows = .ok (rows.map expectedDoc) ∧
    (rows.map expectedDoc).length = rows.length := by
  refine ⟨?_, by simp⟩
  induction rows with
  | nil => rfl
  | cons r rest ih =>
    obtain ⟨hq, ha⟩ := h r (List.mem_cons_self r rest)
    obtain ⟨q, hq⟩ := Option.isSome_iff_exists.mp hq
    obtain ⟨a, ha⟩ := Option.isSome_iff_exists.mp ha
    have hrest := ih fun r hr => h r (List.mem_cons_of_mem _ hr)
    simp only [load_faq_csv, hq, ha, stripField, hrest, List.map_cons,
      expectedDoc, Option.getD_some]

/-- Concrete run of `load_faq_csv_wellformed`: a two-row table with
whitespace-padded fields loads to exactly the two trimmed documents. -/
theorem load_faq_csv_wellformed_witness :
    load_faq_csv [⟨some " Where are you? ", some " Colombo "⟩,
                  ⟨some "Hours?", some "9-5"⟩] =
      .ok [⟨"Q: Where are you?\nA: Colombo"⟩, ⟨"Q: Hours?\nA: 9-5"⟩] :=
  ((load_faq_csv_wellformed
      [⟨some " Where are you? ", some " Colombo "⟩,
       ⟨some "Hours?", some "9-5"⟩] (by decide)).1).trans
    (congrArg Except.ok (by decide))

/-- **C7**: an input table containing some data row whose `Answer` field is
missing makes `load_faq_csv` fail with the missing-field error: the error
propagates (no row-skipping) and no partial Document sequence is
returned. -/
theorem load_faq_csv_missing_answer (rows : List Row)
    (h : ∃ r ∈ rows, r.answer = none) :
    load_faq_csv rows = .error .missingField := by
  induction rows with
  | nil => simp at h
  | cons r rest ih =>
    rw [List.exists_mem_cons_iff] at h
    rcases h with hr | hrest
    · cases hq : r.question with
      | none => simp [load_faq_csv, stripField, hq]
      | some q => simp [load_faq_csv, stripField, hq, hr]
    · cases hq : r.question with
      | none => simp [load_faq_csv, stripField, hq]
      | some q =>
        cases ha : r.answer with
        | none => simp [load_faq_csv, stripField, hq, ha]
        | some a => simp [load_faq_csv, stripField, hq, ha, ih hrest]

/-- Concrete run of `load_faq_csv_missing_answer`: a table whose second row
lacks the `Answer` field fails to load. -/
theorem load_faq_csv_missing_answer_witness :
    load_faq_csv [⟨some "Hours?", some "9-5"⟩, ⟨some "Where?", none⟩] =
      .error .missingField :=
  load_faq_csv_missing_answer
    [⟨some "Hours?", some "9-5"⟩, ⟨some "Where?", none⟩] (by decide)

/-- **C10**: every Document produced by any successful run of the loader has
content of the form `"Q: " ++ q ++ "\nA: " ++ a`, hence non-empty content
that begins with `"Q: "` and contains `"\nA: "` — even when a field is
empty or whitespace-only after trimming. -/
theorem load_faq_csv_content_nonempty (rows : List Row)
    (docs : List Document) (h : load_faq_csv rows = .ok docs) :
    ∀ d ∈ docs, d.page_content ≠ "" ∧
      (∃ q a, d.page_content = "Q: " ++ q ++ "\nA: " ++ a) := by
  induction rows generalizing docs with
  | nil =>
    simp only [load_faq_csv] at h
    cases h
    simp
  | cons r rest ih =>
    simp only [load_faq_csv] at h
    cases hq : stripField r.question with
    | error e => rw [hq] at h; cases h
    | ok q =>
      rw [hq] at h
      cases ha : stripField r.answer with
      | error e => rw [ha] at h; cases h
      | ok a =>
        rw [ha] at h
        cases hrest : load_faq_csv rest with
        | error e => rw [hrest] at h; cases h
        | ok ds =>
          rw [hrest] at h
          cases h
          intro d hd
          rcases List.mem_cons.mp hd with hd | hd
          · subst hd
            refine ⟨?_, q, a, rfl⟩
            intro hcontra
            have h2 := congrArg String.data hcontra
            simp [String.data_append] at h2
          · exact ih ds hrest d hd

/-- Concrete run of `load_faq_csv_content_nonempty`: a row whose fields are
whitespace-only is accepted, and its Document's content is the non-empty
string `"Q: \nA: "`. -/
theorem load_faq_csv_content_nonempty_witness :
    ("Q: \nA: " : String) ≠ "" ∧
      (∃ q a, ("Q: \nA: " : String) = "Q: " ++ q ++ "\nA: " ++ a) :=
  load_faq_csv_content_nonempty [⟨some "  ", some " "⟩] [⟨"Q: \nA: "⟩]
    (by rfl) ⟨"Q: \nA: "⟩ (by simp)

/-- **C2**: `search_faq` queries the index with k = 3; on an empty result
list it returns exactly `"No relevant FAQ entries found."`, and on n > 0
chunks it returns `"Found {n} relevant FAQ entries:"`, two newlines, and
the chunks rendered as `"FAQ Entry {i}:\n{content}"` (1-based) joined by
`"\n\n---\n\n"`. -/
theorem search_faq_spec (store : VectorStore) (query : String) :
    (store.similarity_search query 3 = [] →
      search_faq store query = "No relevant FAQ entries found.") ∧
    (∀ l, store.similarity_search query 3 = l → l ≠ [] →
      search_faq store query =
        "Found " ++ toString l.length ++ " relevant FAQ entries:" ++
          "\n\n" ++
          String.intercalate "\n\n---\n\n"
            (l.enum.map fun p =>
              "FAQ Entry " ++ toString (p.1 + 1) ++ ":\n" ++
                p.2.page_content)) := by
  constructor
  · intro h
    simp [search_faq, h]
  · intro l hl hne
    simp only [search_faq, hl]
    rw [if_neg (by simpa using hne)]
    simp [String.append_assoc]

/-- Concrete runs of `search_faq_spec`: the empty-index case yields the
sentinel and a one-chunk index yields the enumerated rendering. -/
theorem search_faq_spec_witness :
    search_faq emptyStore "refund policy" =
      "No relevant FAQ entries found." ∧
    search_faq (constStore [⟨"Q: What is your refund policy?\nA: 30 days."⟩])
        "refund policy" =
      "Found 1 relevant FAQ entries:\n\nFAQ Entry 1:\nQ: What is your refund policy?\nA: 30 days." :=
  ⟨(search_faq_spec emptyStore "refund policy").1 rfl,
   ((search_faq_spec
        (constStore [⟨"Q: What is your refund policy?\nA: 30 days."⟩])
        "refund policy").2
      [⟨"Q: What is your refund policy?\nA: 30 days."⟩] rfl
      (by decide)).trans (by decide)⟩

/-- **C3**: `reformulate_query` issues its similarity query with exactly
the string `"{focus_aspect} related to {original_query}"` and k = 3 (so its
output depends on the index only through that rewritten query); on an empty
result list it returns `"No results found for aspect: {focus_aspect}"`, and
on n > 0 chunks it returns `"Results for '{focus_aspect}' aspect:"`, two
newlines, and the chunks rendered as `"Entry {i}:\n{content}"` joined by
`"\n\n---\n\n"`. -/
theorem reformulate_query_spec (store store2 : VectorStore)
    (original_query focus_aspect : String) :
    (store.similarity_search
        (focus_aspect ++ " related to " ++ original_query) 3 =
      store2.similarity_search
        (focus_aspect ++ " related to " ++ original_query) 3 →
      reformulate_query store original_query focus_aspect =
        reformulate_query store2 original_query focus_aspect) ∧
    (store.similarity_search
        (focus_aspect ++ " related to " ++ original_query) 3 = [] →
      reformulate_query store original_query focus_aspect =
        "No results found for aspect: " ++ focus_aspect) ∧
    (∀ l, store.similarity_search
        (focus_aspect ++ " related to " ++ original_query) 3 = l →
      l ≠ [] →
      reformulate_query store original_query focus_aspect =
        "Results for \x27" ++ focus_aspect ++ "\x27 aspect:" ++ "\n\n" ++
          String.intercalate "\n\n---\n\n"
            (l.enum.map fun p =>
              "Entry " ++ toString (p.1 + 1) ++ ":\n" ++
                p.2.page_content)) := by
  refine ⟨fun h => by simp only [reformulate_query, h], fun h => by
    simp [reformulate_query, h], fun l hl hne => ?_⟩
  simp only [reformulate_query, hl]
  rw [if_neg (by simpa using hne)]
  simp [String.append_assoc]

/-- Concrete runs of `reformulate_query_spec`: the empty-index case yields
the aspect sentinel and a one-chunk index yields the enumerated
rendering. -/
theorem reformulate_query_spec_witness :
    reformulate_query emptyStore "shipping cost" "international" =
      "No results found for aspect: international" ∧
    reformulate_query (constStore [⟨"Q: s\nA: t"⟩]) "shipping cost"
        "international" =
      "Results for \x27international\x27 aspect:\n\nEntry 1:\nQ: s\nA: t" :=
  ⟨((reformulate_query_spec emptyStore emptyStore "shipping cost"
      "international").2.1 rfl).trans (by decide),
   ((reformulate_query_spec (constStore [⟨"Q: s\nA: t"⟩]) emptyStore
        "shipping cost" "international").2.2
      [⟨"Q: s\nA: t"⟩] rfl (by decide)).trans (by decide)⟩

/-- **C4**: `search_detailed_faq` defaults `num_results` to 5, requests at
most `num_results` chunks from the index (given the index's contract of
returning at most k results, the count n in the header
`"Found {n} detailed FAQ entries:"` equals the actual number of results and
n ≤ num_results), returns the same sentinel as `search_faq` on zero
results, and formats and joins entries by the same pattern as
`search_faq`. -/
theorem search_detailed_faq_spec (store : VectorStore)
    (hstore : ∀ q k, (store.similarity_search q k).length ≤ k)
    (query : String) (num_results : Nat) (_hpos : 0 < num_results) :
    search_detailed_faq store query = search_detailed_faq store query 5 ∧
    (store.similarity_search query num_results = [] →
      search_detailed_faq store query num_results =
        "No relevant FAQ entries found.") ∧
    (∀ l, store.similarity_search query num_results = l → l ≠ [] →
      l.length ≤ num_results ∧
      search_detailed_faq store query num_results =
        "Found " ++ toString l.length ++ " detailed FAQ entries:" ++
          "\n\n" ++
          String.intercalate "\n\n---\n\n"
            (l.enum.map fun p =>
              "FAQ Entry " ++ toString (p.1 + 1) ++ ":\n" ++
                p.2.page_content)) := by
  refine ⟨rfl, fun h => by simp [search_detailed_faq, h],
    fun l hl hne => ⟨hl ▸ hstore query num_results, ?_⟩⟩
  simp only [search_detailed_faq, hl]
  rw [if_neg (by simpa using hne)]
  simp [String.append_assoc]

/-- Concrete runs of `search_detailed_faq_spec`: the empty-index case
yields the sentinel and a one-chunk index yields the detailed header with
n = 1 ≤ 5. -/
theorem search_detailed_faq_spec_witness :
    search_detailed_faq emptyStore "q" 5 =
      "No relevant FAQ entries found." ∧
    ([(⟨"Q: a\nA: b"⟩ : Document)].length ≤ 5 ∧
      search_detailed_faq (constStore [⟨"Q: a\nA: b"⟩]) "q" 5 =
        "Found 1 detailed FAQ entries:\n\nFAQ Entry 1:\nQ: a\nA: b") := by
  have hempty : ∀ q k, (emptyStore.similarity_search q k).length ≤ k := by
    intro q k
    simp [emptyStore]
  have hconst : ∀ q k,
      ((constStore [⟨"Q: a\nA: b"⟩]).similarity_search q k).length ≤ k := by
    intro q k
    simp [constStore, List.length_take]
  have h := (search_detailed_faq_spec (constStore [⟨"Q: a\nA: b"⟩]) hconst
    "q" 5 (by decide)).2.2 [⟨"Q: a\nA: b"⟩] rfl (by decide)
  exact ⟨(search_detailed_faq_spec emptyStore hempty "q" 5 (by decide)).2.1
      rfl,
    h.1, h.2.trans (by decide)⟩

/-- **C5**: for every payload containing a `"prompt"` key with value p, the
entrypoint invokes the Agent Loop with exactly one human-turn message whose
content is p, and returns a mapping with exactly one key, `"result"`,
holding the content of the last message of the returned history. -/
theorem agent_invocation_prompt (agent : AgentLoop)
    (payload : List (String × String)) (p : String)
    (hp : payload.lookup "prompt" = some p) (m : Message)
    (hm : (agent [("human", p)]).getLast? = some m) :
    agent_invocation agent payload = some [("result", m.content)] := by
  simp only [agent_invocation, hp, Option.getD_some, hm]

/-- Concrete run of `agent_invocation_prompt`: the prompt is forwarded and
the agent's final message content comes back under `"result"`. -/
theorem agent_invocation_prompt_witness :
    agent_invocation (constAgent "We are in Colombo.")
        [("prompt", "Where are you located?")] =
      some [("result", "We are in Colombo.")] :=
  agent_invocation_prompt (constAgent "We are in Colombo.")
    [("prompt", "Where are you located?")] "Where are you located?"
    (by decide) ⟨"We are in Colombo."⟩ rfl

/-- **C6**: for every payload without a `"prompt"` key, the entrypoint does
not fail: it proceeds exactly as it would for a payload whose prompt is the
literal default `"No prompt found in input"`, and in particular returns the
`"result"` mapping built from the agent's final message for that default
text. -/
theorem agent_invocation_default (agent : AgentLoop)
    (payload : List (String × String))
    (hp : payload.lookup "prompt" = none) :
    agent_invocation agent payload =
      agent_invocation agent [("prompt", "No prompt found in input")] ∧
    (∀ m, (agent [("human", "No prompt found in input")]).getLast? =
        some m →
      agent_invocation agent payload = some [("result", m.content)]) := by
  constructor
  · simp only [agent_invocation, hp]
    rfl
  · intro m hm
    simp only [agent_invocation, hp, Option.getD_none, hm]

/-- Concrete run of `agent_invocation_default`: a payload with no `prompt`
key succeeds and answers from the default text. -/
theorem agent_invocation_default_witness :
    agent_invocation (constAgent "ans") [("other", "x")] =
        agent_invocation (constAgent "ans")
          [("prompt", "No prompt found in input")] ∧
      agent_invocation (constAgent "ans") [("other", "x")] =
        some [("result", "ans")] :=
  have h := agent_invocation_default (constAgent "ans") [("other", "x")]
    (by decide)
  ⟨h.1, h.2 ⟨"ans"⟩ rfl⟩

/-- **C9**: the three tools are stateless and deterministic across calls:
no tool call changes the application state observable by a later call, and
a tool call's result text is unchanged when another tool call is
interleaved before it (for a fixed index snapshot, same arguments give the
same text). -/
theorem tools_stateless_deterministic (s : AppState) (c c2 : ToolCall) :
    (runTool s c).2 = s ∧
    (runTool (runTool s c2).2 c).1 = (runTool s c).1 := by
  constructor
  · cases c <;> rfl
  · cases c2 <;> cases c <;> rfl

end FaqApp
